import Mathlib

/-!
Shallow embedding of `src/app/(protected)/integrations/github/page.tsx`
(the GitHub integration dashboard page) and proofs about its observable
contract: the render selector, the data fetch effect, the sync and
disconnect action dispatchers, the notification link rewrite, and the
page-level state machine induced by the render/effect scheduling of React.
-/

namespace GitHubPage

/-! ## Data model (interfaces from the source file) -/

/-- `interface GitHubUser` (page.tsx lines 13-19). -/
structure GitHubUser where
  login : String
  name : Option String
  avatar_url : String
  bio : Option String
  public_repos : Nat
deriving DecidableEq, Repr

/-- `interface GitHubRepo` (page.tsx lines 21-30). -/
structure GitHubRepo where
  id : Nat
  name : String
  full_name : String
  description : Option String
  stargazers_count : Nat
  forks_count : Nat
  updated_at : String
  html_url : String
deriving DecidableEq, Repr

/-- `subject` field of `interface GitHubNotification` (page.tsx line 35). -/
structure NotificationSubject where
  title : String
  url : Option String
deriving DecidableEq, Repr

/-- `repository` field of `interface GitHubNotification` (page.tsx line 34). -/
structure NotificationRepository where
  full_name : String
deriving DecidableEq, Repr

/-- `interface GitHubNotification` (page.tsx lines 32-38). -/
structure GitHubNotification where
  id : String
  repository : NotificationRepository
  subject : NotificationSubject
  reason : String
  updated_at : String
deriving DecidableEq, Repr

/-- The `error` state value (page.tsx lines 47-50): a message plus an
optional structured `details` payload.  The payload is of TypeScript type
`unknown` and is never inspected by the page, so it is modelled as an
opaque-to-the-page `Option String`. -/
structure ErrorState where
  message : String
  details : Option String
deriving DecidableEq, Repr

/-- An external account record from the identity provider
(`user.externalAccounts`, page.tsx lines 52-54). -/
structure ExternalAccount where
  provider : String
deriving DecidableEq, Repr

/-- The user object of the identity provider (only the field the page reads). -/
structure ClerkUser where
  externalAccounts : List ExternalAccount
deriving DecidableEq, Repr

/-- The state of the identity provider, from `useUser()` (page.tsx line 41):
either still resolving (`isLoaded` false) or resolved with an optional
signed-in user. -/
inductive Identity where
  | notLoaded
  | loaded (user : Option ClerkUser)
deriving DecidableEq, Repr

/-- `userLoaded` (`isLoaded` from `useUser()`, page.tsx line 41). -/
def Identity.userLoaded : Identity → Bool
  | .notLoaded => false
  | .loaded _ => true

/-- `isConnected` (page.tsx lines 52-54):
`user?.externalAccounts?.some((account) => account.provider === "github")`,
with the optional chain collapsing to false when there is no user. -/
def Identity.isConnected : Identity → Bool
  | .notLoaded => false
  | .loaded none => false
  | .loaded (some u) => u.externalAccounts.any (fun a => a.provider == "github")

/-! ## Requests, responses and the shared catch clause -/

/-- A value thrown inside a `try` block: either an `Error` instance
carrying a message and the optional `details` field of its `cause`
(as read by `(err.cause as { details?: unknown })?.details`), or a
non-`Error` value. -/
inductive Thrown where
  | errObj (message : String) (details : Option String)
  | nonError
deriving DecidableEq, Repr

/-- Settlement of one `fetch` call with success body type `α`:
an ok response, a non-ok response whose JSON body is
`{ error: string, details?: ... }` (which the handlers turn into
`throw new Error(errorData.error, { cause: errorData })`), or a throw
before/while reading the response. -/
inductive Response (α : Type) where
  | ok (body : α)
  | httpError (errMsg : String) (details : Option String)
  | thrown (t : Thrown)
deriving DecidableEq, Repr

/-- The shared `catch (err)` clause (page.tsx lines 80-88, 113-121,
144-157): an `Error` instance yields its message and the `details` of its
cause; anything else yields the generic message. -/
def caughtError : Thrown → ErrorState
  | .errObj m d => ⟨m, d⟩
  | .nonError => ⟨"An unknown error occurred", none⟩

/-- Success body of `GET /api/github/data` (page.tsx lines 76-79). -/
structure FetchBody where
  user : GitHubUser
  repos : List GitHubRepo
  notifications : List GitHubNotification
deriving DecidableEq, Repr

/-! ## Page-local state and the handlers -/

/-- The `useState` cells of the page (page.tsx lines 42-50). -/
structure LocalState where
  githubUser : Option GitHubUser
  repos : List GitHubRepo
  notifications : List GitHubNotification
  loading : Bool
  isSyncing : Bool
  error : Option ErrorState
deriving DecidableEq, Repr

/-- Initial values of the `useState` cells (page.tsx lines 42-50):
no data, `loading` true, `isSyncing` false, no error. -/
def initialLocal : LocalState :=
  { githubUser := none, repos := [], notifications := [],
    loading := true, isSyncing := false, error := none }

/-- State updates performed by the try/catch/finally of `fetchGitHubData` once
the fetch settles (page.tsx lines 63-91): on ok populate the three data
cells, on failure set `error`; `finally` always clears `loading`. -/
def applyFetch (resp : Response FetchBody) (ls : LocalState) : LocalState :=
  match resp with
  | .ok body =>
      { ls with githubUser := some body.user, repos := body.repos,
                notifications := body.notifications, loading := false }
  | .httpError e d => { ls with error := some ⟨e, d⟩, loading := false }
  | .thrown t => { ls with error := some (caughtError t), loading := false }

/-- Kind of a `sonner` toast: `toast.success` or `toast.error`. -/
inductive ToastKind where
  | success
  | error
deriving DecidableEq, Repr

/-- A toast notification: kind, title, and `description`. -/
structure Toast where
  kind : ToastKind
  title : String
  description : String
deriving DecidableEq, Repr

/-- The success toast description of `handleSync` (page.tsx line 142):
a template literal interpolating `result.chunks`. -/
def syncSuccessMsg (chunks : Nat) : String :=
  "Successfully stored " ++ toString chunks ++ " chunks in the database."

/-- First statement of `handleSync` (page.tsx line 126):
`setIsSyncing(true)`. -/
def handleSyncDispatch (ls : LocalState) : LocalState :=
  { ls with isSyncing := true }

/-- State updates and toasts of `handleSync` once the sync request settles
(page.tsx lines 127-160): on ok a success toast with the chunk count; on a
thrown `Error` (which a non-ok response is converted into) set `error` and
show a failure toast with the message; on a non-`Error` throw only the
generic failure toast.  `finally` always clears `isSyncing`. -/
def handleSyncSettle (resp : Response Nat) (ls : LocalState) :
    LocalState × List Toast :=
  match resp with
  | .ok chunks =>
      ({ ls with isSyncing := false },
       [⟨.success, "GitHub Data Synced", syncSuccessMsg chunks⟩])
  | .httpError e d =>
      ({ ls with error := some ⟨e, d⟩, isSyncing := false },
       [⟨.error, "Sync Failed", e⟩])
  | .thrown (.errObj m d) =>
      ({ ls with error := some ⟨m, d⟩, isSyncing := false },
       [⟨.error, "Sync Failed", m⟩])
  | .thrown .nonError =>
      ({ ls with isSyncing := false },
       [⟨.error, "Sync Failed", "An unknown error occurred"⟩])

/-- A whole `handleSync` run (page.tsx lines 125-161): dispatch then
settlement. -/
def handleSync (resp : Response Nat) (ls : LocalState) :
    LocalState × List Toast :=
  handleSyncSettle resp (handleSyncDispatch ls)

/-- `disabled={isSyncing}` on the sync button (page.tsx line 240). -/
def syncControlDisabled (ls : LocalState) : Bool :=
  ls.isSyncing

/-- `handleDisconnect` (page.tsx lines 97-123): on ok set
`window.location.href = "/integrations"` (returned as the navigation
target); on a non-ok response or a throw, set `error` and stay. -/
def handleDisconnect (resp : Response Unit) (ls : LocalState) :
    LocalState × Option String :=
  match resp with
  | .ok _ => (ls, some "/integrations")
  | .httpError e d => ({ ls with error := some ⟨e, d⟩ }, none)
  | .thrown t => ({ ls with error := some (caughtError t) }, none)

/-! ## The render selector -/

/-- The four mutually exclusive views the component can return. -/
inductive View where
  | loading
  | notConnected
  | errorView
  | connected
deriving DecidableEq, Repr

/-- The render selector (page.tsx lines 163-218): the early returns
`if (!userLoaded || loading)`, `if (!isConnected)`, `if (error)`, and the
final connected dashboard. -/
def renderView (userLoaded isConnected : Bool) (ls : LocalState) : View :=
  if !userLoaded || ls.loading then .loading
  else if !isConnected then .notConnected
  else if ls.error.isSome then .errorView
  else .connected

/-! ## The notification link rewrite -/

/-- JavaScript `String.prototype.replace` with a string pattern on a char
list: replaces only the first occurrence of `pat` (and inserts `rep` at
the front when `pat` is empty), leaving the string unchanged when `pat`
does not occur. -/
def jsReplaceFirstList (pat rep : List Char) : List Char → List Char
  | [] => if pat.isEmpty then rep else []
  | c :: cs =>
      if pat.isPrefixOf (c :: cs) then rep ++ (c :: cs).drop pat.length
      else c :: jsReplaceFirstList pat rep cs

/-- JavaScript `url.replace(pat, rep)` with a plain-string pattern
(the replacement used here contains no `$` patterns). -/
def jsReplaceFirst (s pat rep : String) : String :=
  ⟨jsReplaceFirstList pat.data rep.data s.data⟩

/-- The link target of the View button of a notification (page.tsx lines
318-321): `notification.subject.url.replace("api.github.com/repos",
"github.com")`. -/
def notificationLinkTarget (url : String) : String :=
  jsReplaceFirst url "api.github.com/repos" "github.com"

/-- The link rendered for a notification (page.tsx lines 315-327): only
present when `subject.url` is non-null. -/
def renderedNotificationLink (n : GitHubNotification) : Option String :=
  n.subject.url.map notificationLinkTarget

/-- Modelled from the spec: the phrase "host/path prefix
`api.github.com/repos`" for a URL, read as: the part of the URL after an
`https://` or `http://` scheme begins with `api.github.com/repos`.  Used
only to state the claim about which URLs are rewritten. -/
def hasApiHostForm (url : String) : Bool :=
  let hostPath : List Char :=
    if "https://".data.isPrefixOf url.data then url.data.drop 8
    else if "http://".data.isPrefixOf url.data then url.data.drop 7
    else url.data
  "api.github.com/repos".data.isPrefixOf hostPath

/-- Whether `pat` occurs as a contiguous run anywhere in the list. -/
def occursIn (pat : List Char) : List Char → Bool
  | [] => pat.isEmpty
  | c :: cs => pat.isPrefixOf (c :: cs) || occursIn pat cs

/-! ## The profile heading of the connected view -/

/-- The profile heading (page.tsx line 273):
`githubUser.name ?? githubUser.login`. -/
def profileHeading (u : GitHubUser) : String :=
  u.name.getD u.login

/-- The heading of the profile card in the connected view (page.tsx lines
260-286): the card (and hence the heading) is rendered only when
`githubUser` is present. -/
def renderedProfileHeading (ls : LocalState) : Option String :=
  ls.githubUser.map profileHeading

/-! ## The page lifecycle as a transition system

React semantics of the component: `useUser` may resolve after mount; the
`useEffect` with dependency list `[userLoaded, isConnected]` runs after
mount and again after the dependencies change; each in-flight request
settles later with some response.  Request dispatch from the dashboard
buttons is only possible while the connected view is rendered (and, for
sync, while the button is not disabled).  `fetchesIssued`/`fetchesSettled`
count `GET /api/github/data` requests, `syncCount` counts in-flight sync
requests, and `navigated` records a completed `window.location.href`
assignment, after which the page is gone. -/

structure PageState where
  identity : Identity
  ls : LocalState
  effectScheduled : Bool
  fetchInFlight : Bool
  fetchesIssued : Nat
  fetchesSettled : Nat
  syncCount : Nat
  disconnectInFlight : Bool
  navigated : Option String
deriving DecidableEq, Repr

/-- A freshly mounted page: initial `useState` values, the mount effect
run still pending, no requests in flight. -/
def mkInitial (id0 : Identity) : PageState :=
  { identity := id0, ls := initialLocal, effectScheduled := true,
    fetchInFlight := false, fetchesIssued := 0, fetchesSettled := 0,
    syncCount := 0, disconnectInFlight := false, navigated := none }

/-- The view currently rendered for a page state. -/
def renderState (s : PageState) : View :=
  renderView s.identity.userLoaded s.identity.isConnected s.ls

/-- One atomic scheduling step of the page. -/
inductive Step : PageState → PageState → Prop where
  /-- The identity provider resolves; the dependencies of the effect
  (`userLoaded`, and possibly `isConnected`) change, so the effect is
  rescheduled. -/
  | identityResolve (s : PageState) (u : Option ClerkUser) :
      s.navigated = none → s.identity = .notLoaded →
      Step s { s with identity := .loaded u, effectScheduled := true }
  /-- A scheduled effect run hits the guard at page.tsx lines 58-61
  (`!userLoaded || !isConnected`): it clears `loading` and returns
  without fetching. -/
  | effectSkip (s : PageState) :
      s.navigated = none → s.effectScheduled = true →
      (s.identity.userLoaded && s.identity.isConnected) = false →
      Step s { s with ls := { s.ls with loading := false },
                      effectScheduled := false }
  /-- A scheduled effect run passes the guard and issues the
  `GET /api/github/data` request (page.tsx line 64). -/
  | effectFetch (s : PageState) :
      s.navigated = none → s.effectScheduled = true →
      (s.identity.userLoaded && s.identity.isConnected) = true →
      Step s { s with effectScheduled := false, fetchInFlight := true,
                      fetchesIssued := s.fetchesIssued + 1 }
  /-- The in-flight data fetch settles with some response. -/
  | fetchSettle (s : PageState) (resp : Response FetchBody) :
      s.navigated = none → s.fetchInFlight = true →
      Step s { s with ls := applyFetch resp s.ls, fetchInFlight := false,
                      fetchesSettled := s.fetchesSettled + 1 }
  /-- The user clicks the sync button: possible only while the connected
  dashboard is rendered and the button is not disabled
  (`disabled={isSyncing}`). -/
  | syncClick (s : PageState) :
      s.navigated = none → renderState s = .connected →
      s.ls.isSyncing = false →
      Step s { s with ls := handleSyncDispatch s.ls,
                      syncCount := s.syncCount + 1 }
  /-- An in-flight sync request settles with some response. -/
  | syncSettle (s : PageState) (resp : Response Nat) :
      s.navigated = none → 0 < s.syncCount →
      Step s { s with ls := (handleSyncSettle resp s.ls).1,
                      syncCount := s.syncCount - 1 }
  /-- The user clicks the disconnect button (no busy guard): possible
  only while the connected dashboard is rendered. -/
  | disconnectClick (s : PageState) :
      s.navigated = none → renderState s = .connected →
      Step s { s with disconnectInFlight := true }
  /-- An in-flight disconnect request settles: on ok the page navigates
  to `/integrations`; on failure it sets `error` and stays. -/
  | disconnectSettle (s : PageState) (resp : Response Unit) :
      s.navigated = none → s.disconnectInFlight = true →
      Step s { s with ls := (handleDisconnect resp s.ls).1,
                      navigated := (handleDisconnect resp s.ls).2,
                      disconnectInFlight := false }

/-- Reachability along scheduling steps. -/
def Reachable (s t : PageState) : Prop :=
  Relation.ReflTransGen Step s t

/-! ## Concrete states used to instantiate the theorems -/

/-- An external account with provider "github". -/
def ghAccount : ExternalAccount := ⟨"github"⟩

/-- A signed-in user with a linked GitHub account. -/
def ghClerkUser : ClerkUser := ⟨[ghAccount]⟩

/-- A mounted page whose identity provider has not yet resolved. -/
def cxS0 : PageState := mkInitial .notLoaded

/-- `cxS0` after the mount effect run hits the not-loaded guard and
clears `loading`. -/
def cxS1 : PageState :=
  { cxS0 with ls := { cxS0.ls with loading := false },
              effectScheduled := false }

/-- `cxS1` after the identity provider resolves with a GitHub-connected
user. -/
def cxS2 : PageState :=
  { cxS1 with identity := .loaded (some ghClerkUser),
              effectScheduled := true }

/-- A local state rendering the connected dashboard: data loaded, no
error. -/
def cxConnectedLs : LocalState :=
  { githubUser := none, repos := [], notifications := [],
    loading := false, isSyncing := false, error := none }

/-- A freshly mounted page with identity already resolved but no GitHub
account linked, after its effect run cleared `loading`. -/
def c7s1 : PageState :=
  { mkInitial (.loaded none) with
      ls := { (mkInitial (.loaded none)).ls with loading := false },
      effectScheduled := false }

/-- A page state with an error already set. -/
def c9s : PageState :=
  { mkInitial .notLoaded with
      ls := { initialLocal with error := some ⟨"boom", none⟩ } }

/-- A GitHub profile without a display name. -/
def c10u : GitHubUser :=
  { login := "octocat", name := none, avatar_url := "", bio := none,
    public_repos := 0 }

/-! ## Helper lemmas on lists and the replace function -/

theorem isPrefixOf_append_self (p r : List Char) :
    p.isPrefixOf (p ++ r) = true := by
  induction p with
  | nil => simp [List.isPrefixOf]
  | cons a as ih => simp [List.isPrefixOf, ih]

theorem occursIn_append_self (p l r : List Char) :
    occursIn p (l ++ p ++ r) = true := by
  induction l with
  | nil =>
    cases p with
    | nil =>
      cases r with
      | nil => rfl
      | cons c cs => simp [occursIn, List.isPrefixOf]
    | cons a as =>
      have hpre : (a :: as).isPrefixOf (a :: (as ++ r)) = true :=
        isPrefixOf_append_self (a :: as) r
      simp [occursIn, hpre]
  | cons c cs ih =>
    simp [occursIn, List.append_assoc] at ih ⊢
    exact Or.inr ih

theorem jsReplaceFirstList_of_not_occurs (p rep : List Char) :
    ∀ l, occursIn p l = false → jsReplaceFirstList p rep l = l := by
  intro l
  induction l with
  | nil =>
    intro h
    simp [occursIn] at h
    simp [jsReplaceFirstList, h]
  | cons c cs ih =>
    intro h
    simp [occursIn] at h
    simp [jsReplaceFirstList, h.1, ih h.2]

theorem isPrefixOf_cons_of_head_ne (a b : Char) (as bs : List Char)
    (h : (a == b) = false) : (a :: as).isPrefixOf (b :: bs) = false := by
  simp only [List.isPrefixOf, h, Bool.false_and]

theorem jsReplaceFirstList_cons_no_match (p rep : List Char) (c : Char)
    (cs : List Char) (h : p.isPrefixOf (c :: cs) = false) :
    jsReplaceFirstList p rep (c :: cs) = c :: jsReplaceFirstList p rep cs := by
  simp [jsReplaceFirstList, h]

theorem jsReplaceFirstList_at_match (a : Char) (as rep r : List Char) :
    jsReplaceFirstList (a :: as) rep (a :: (as ++ r)) = rep ++ r := by
  have hpre : (a :: as).isPrefixOf (a :: (as ++ r)) = true :=
    isPrefixOf_append_self (a :: as) r
  simp [jsReplaceFirstList, hpre, List.drop_left]

theorem linkTarget_list_api_form (rest : List Char) :
    jsReplaceFirstList "api.github.com/repos".data "github.com".data
      ("https://".data ++ "api.github.com/repos".data ++ rest)
    = "https://".data ++ "github.com".data ++ rest := by
  have hne : ∀ (b : Char) (bs : List Char), (('a' : Char) == b) = false →
      ("api.github.com/repos".data).isPrefixOf (b :: bs) = false := by
    intro b bs h
    exact isPrefixOf_cons_of_head_ne 'a' b "pi.github.com/repos".data bs h
  have h0 : "https://".data ++ "api.github.com/repos".data ++ rest
      = 'h' :: 't' :: 't' :: 'p' :: 's' :: ':' :: '/' :: '/' ::
          ("api.github.com/repos".data ++ rest) := rfl
  rw [h0]
  rw [jsReplaceFirstList_cons_no_match _ _ _ _ (hne 'h' _ (by decide))]
  rw [jsReplaceFirstList_cons_no_match _ _ _ _ (hne 't' _ (by decide))]
  rw [jsReplaceFirstList_cons_no_match _ _ _ _ (hne 't' _ (by decide))]
  rw [jsReplaceFirstList_cons_no_match _ _ _ _ (hne 'p' _ (by decide))]
  rw [jsReplaceFirstList_cons_no_match _ _ _ _ (hne 's' _ (by decide))]
  rw [jsReplaceFirstList_cons_no_match _ _ _ _ (hne ':' _ (by decide))]
  rw [jsReplaceFirstList_cons_no_match _ _ _ _ (hne '/' _ (by decide))]
  rw [jsReplaceFirstList_cons_no_match _ _ _ _ (hne '/' _ (by decide))]
  have hm : jsReplaceFirstList "api.github.com/repos".data "github.com".data
      ("api.github.com/repos".data ++ rest) = "github.com".data ++ rest :=
    jsReplaceFirstList_at_match 'a' "pi.github.com/repos".data
      "github.com".data rest
  rw [hm]
  rfl

theorem notificationLinkTarget_api_form (rest : String) :
    notificationLinkTarget ("https://api.github.com/repos" ++ rest)
      = "https://github.com" ++ rest := by
  show String.mk (jsReplaceFirstList "api.github.com/repos".data
      "github.com".data ("https://api.github.com/repos" ++ rest).data)
    = "https://github.com" ++ rest
  have hdata : ("https://api.github.com/repos" ++ rest).data
      = "https://".data ++ "api.github.com/repos".data ++ rest.data := rfl
  rw [hdata, linkTarget_list_api_form rest.data]
  rfl

/-! ## Claim C3 -/

/-- Claim C3 counterexample: the claim says only URLs whose host/path has
`api.github.com/repos` as a prefix are rewritten, but the code calls
`url.replace("api.github.com/repos", "github.com")`, which fires on the
first occurrence of the substring anywhere: the URL
`https://example.com/api.github.com/repos/x` does not have the host/path
prefix yet is rewritten (to `https://example.com/github.com/x`). -/
theorem link_rewrite_not_only_api_host :
    ¬ (∀ url : String, hasApiHostForm url = false →
        notificationLinkTarget url = url) := by
  intro h
  have hx := h "https://example.com/api.github.com/repos/x" (by decide)
  exact absurd hx (by decide)

/-- Claim C3 (corrected): the rendered link target is the subject URL
with the first occurrence of the substring `api.github.com/repos`
anywhere in it replaced by `github.com`.  URLs of the claimed form
`https://api.github.com/repos...` are rewritten exactly as the claim
says (in particular the `acme/widget` example), and URLs not containing
the substring at all are left unchanged — but the rewrite is not limited
to host/path-prefix occurrences. -/
theorem link_rewrite_first_occurrence :
    (∀ rest : String,
      notificationLinkTarget ("https://api.github.com/repos" ++ rest)
        = "https://github.com" ++ rest)
    ∧ (∀ url : String,
        occursIn "api.github.com/repos".data url.data = false →
        notificationLinkTarget url = url)
    ∧ notificationLinkTarget
        "https://api.github.com/repos/acme/widget/issues/3"
      = "https://github.com/acme/widget/issues/3" := by
  refine ⟨notificationLinkTarget_api_form, ?_, by decide⟩
  intro url h
  show String.mk (jsReplaceFirstList "api.github.com/repos".data
      "github.com".data url.data) = url
  rw [jsReplaceFirstList_of_not_occurs _ _ _ h]

/-- Witness for C3: a URL without the substring is left unchanged. -/
theorem link_rewrite_first_occurrence_witness :
    notificationLinkTarget "https://nope" = "https://nope" :=
  link_rewrite_first_occurrence.2.1 "https://nope" (by decide)

/-! ## Claim C4 -/

/-- Claim C4 (confirmed): for any combination of `userLoaded`,
`loading`, `isConnected` and `error`, the render selector produces
exactly one of the four views, and each view is active exactly on its
guard condition, so the four view states are mutually exclusive and
exhaustive. -/
theorem render_selector_exactly_one (ul ic : Bool) (ls : LocalState) :
    (∃! v : View, renderView ul ic ls = v)
    ∧ (renderView ul ic ls = View.loading ↔ (ul = false ∨ ls.loading = true))
    ∧ (renderView ul ic ls = View.notConnected ↔
        (ul = true ∧ ls.loading = false ∧ ic = false))
    ∧ (renderView ul ic ls = View.errorView ↔
        (ul = true ∧ ls.loading = false ∧ ic = true ∧ ls.error.isSome = true))
    ∧ (renderView ul ic ls = View.connected ↔
        (ul = true ∧ ls.loading = false ∧ ic = true ∧ ls.error = none)) := by
  obtain ⟨g, rs, ns, ld, sy, e⟩ := ls
  refine ⟨⟨renderView ul ic _, rfl, fun v hv => hv.symm⟩, ?_, ?_, ?_, ?_⟩ <;>
    cases ul <;> cases ld <;> cases ic <;> cases e <;> simp [renderView]

/-! ## Claim C6 -/

/-- Claim C6 (confirmed): a disconnect request that settles ok triggers a
full navigation to the fixed path `/integrations` (discarding local
state) and changes nothing locally; a non-ok response or a throw sets
`error` (from the parsed message/details, or the generic message for a
non-Error throw) and does not navigate. -/
theorem disconnect_navigation (ls : LocalState) (e : String)
    (d : Option String) :
    handleDisconnect (.ok ()) ls = (ls, some "/integrations")
    ∧ handleDisconnect (.httpError e d) ls
        = ({ ls with error := some ⟨e, d⟩ }, none)
    ∧ handleDisconnect (.thrown (.errObj e d)) ls
        = ({ ls with error := some ⟨e, d⟩ }, none)
    ∧ handleDisconnect (.thrown .nonError) ls
        = ({ ls with error := some ⟨"An unknown error occurred", none⟩ },
           none) :=
  ⟨rfl, rfl, rfl, rfl⟩

/-! ## Claim C8 -/

/-- Claim C8 (confirmed): a successful sync response produces exactly one
success toast whose description interpolates the chunk count returned by
the backend, so the notification text contains the rendered count; in
particular for `{ chunks: 42 }` it contains `42`. -/
theorem sync_success_toast_chunks (ls : LocalState) (chunks : Nat) :
    (handleSync (.ok chunks) ls).2
      = [⟨ToastKind.success, "GitHub Data Synced", syncSuccessMsg chunks⟩]
    ∧ occursIn (toString chunks).data (syncSuccessMsg chunks).data = true
    ∧ occursIn "42".data (syncSuccessMsg 42).data = true := by
  refine ⟨rfl, ?_, by decide⟩
  have h : (syncSuccessMsg chunks).data
      = "Successfully stored ".data ++ (toString chunks).data
          ++ " chunks in the database.".data := rfl
  rw [h]
  exact occursIn_append_self _ _ _

/-! ## Claim C10 -/

/-- Claim C10 (confirmed): when a profile is present the connected view
renders a heading, and that heading is the display name when it is
non-null and the login otherwise. -/
theorem profile_heading_fallback (ls : LocalState) (u : GitHubUser)
    (n : String) :
    (ls.githubUser = some u →
      renderedProfileHeading ls = some (profileHeading u))
    ∧ (u.name = some n → profileHeading u = n)
    ∧ (u.name = none → profileHeading u = u.login) := by
  refine ⟨fun h => ?_, fun h => ?_, fun h => ?_⟩
  · simp [renderedProfileHeading, h]
  · simp [profileHeading, h]
  · simp [profileHeading, h]

/-- Witness for C10: a profile with a null display name is headed by its
login. -/
theorem profile_heading_fallback_witness :
    profileHeading c10u = "octocat" :=
  (profile_heading_fallback initialLocal c10u "").2.2 rfl

/-! ## Helper lemmas on the handlers -/

theorem applyFetch_isSyncing (resp : Response FetchBody) (ls : LocalState) :
    (applyFetch resp ls).isSyncing = ls.isSyncing := by
  cases resp <;> rfl

theorem applyFetch_error_isSome (resp : Response FetchBody)
    (ls : LocalState) (h : ls.error.isSome = true) :
    (applyFetch resp ls).error.isSome = true := by
  cases resp with
  | ok _ => exact h
  | httpError _ _ => rfl
  | thrown t => rfl

theorem handleSyncSettle_loading (resp : Response Nat) (ls : LocalState) :
    ((handleSyncSettle resp ls).1).loading = ls.loading := by
  cases resp with
  | ok _ => rfl
  | httpError _ _ => rfl
  | thrown t => cases t <;> rfl

theorem handleSyncSettle_isSyncing (resp : Response Nat) (ls : LocalState) :
    ((handleSyncSettle resp ls).1).isSyncing = false := by
  cases resp with
  | ok _ => rfl
  | httpError _ _ => rfl
  | thrown t => cases t <;> rfl

theorem handleSyncSettle_error_isSome (resp : Response Nat)
    (ls : LocalState) (h : ls.error.isSome = true) :
    ((handleSyncSettle resp ls).1).error.isSome = true := by
  cases resp with
  | ok _ => exact h
  | httpError _ _ => rfl
  | thrown t =>
    cases t with
    | errObj _ _ => rfl
    | nonError => exact h

theorem handleDisconnect_loading (resp : Response Unit) (ls : LocalState) :
    ((handleDisconnect resp ls).1).loading = ls.loading := by
  cases resp <;> rfl

theorem handleDisconnect_isSyncing (resp : Response Unit) (ls : LocalState) :
    ((handleDisconnect resp ls).1).isSyncing = ls.isSyncing := by
  cases resp <;> rfl

theorem handleDisconnect_error_isSome (resp : Response Unit)
    (ls : LocalState) (h : ls.error.isSome = true) :
    ((handleDisconnect resp ls).1).error.isSome = true := by
  cases resp with
  | ok _ => exact h
  | httpError _ _ => rfl
  | thrown t => rfl

/-! ## Step-relation invariant lemmas -/

theorem step_preserves_error {s t : PageState} (h : Step s t)
    (he : s.ls.error.isSome = true) : t.ls.error.isSome = true := by
  cases h with
  | identityResolve u h1 h2 => exact he
  | effectSkip h1 h2 h3 => exact he
  | effectFetch h1 h2 h3 => exact he
  | fetchSettle resp h1 h2 => exact applyFetch_error_isSome resp s.ls he
  | syncClick h1 h2 h3 => exact he
  | syncSettle resp h1 h2 => exact handleSyncSettle_error_isSome resp s.ls he
  | disconnectClick h1 h2 => exact he
  | disconnectSettle resp h1 h2 =>
    exact handleDisconnect_error_isSome resp s.ls he

theorem step_identity_loaded {s t : PageState} (h : Step s t)
    (u : Option ClerkUser) (hi : s.identity = .loaded u) :
    t.identity = .loaded u := by
  cases h with
  | identityResolve v h1 h2 => rw [hi] at h2; simp at h2
  | effectSkip h1 h2 h3 => exact hi
  | effectFetch h1 h2 h3 => exact hi
  | fetchSettle resp h1 h2 => exact hi
  | syncClick h1 h2 h3 => exact hi
  | syncSettle resp h1 h2 => exact hi
  | disconnectClick h1 h2 => exact hi
  | disconnectSettle resp h1 h2 => exact hi

/-! ## Claim C9 -/

/-- Claim C9 (confirmed): once `error` is non-null, no scheduling step of
the page (fetch settlement, sync dispatch or settlement, disconnect
dispatch or settlement, identity resolution) ever sets it back to null;
it can only change to another non-null error.  A remount (a fresh
`mkInitial`) is the only way back to null. -/
theorem error_never_cleared (s t : PageState) (h : Reachable s t)
    (he : s.ls.error.isSome = true) : t.ls.error.isSome = true := by
  induction h with
  | refl => exact he
  | tail hab hbc ih => exact step_preserves_error hbc ih

/-- Witness for C9 at a concrete errored state. -/
theorem error_never_cleared_witness : c9s.ls.error.isSome = true :=
  error_never_cleared c9s c9s Relation.ReflTransGen.refl rfl

/-! ## Claim C5 -/

theorem reachable_sync_invariant (id0 : Identity) (s : PageState)
    (h : Reachable (mkInitial id0) s) :
    s.syncCount ≤ 1 ∧ (s.syncCount = 1 → s.ls.isSyncing = true) := by
  induction h with
  | refl => exact ⟨Nat.zero_le 1, fun hc => absurd hc Nat.zero_ne_one⟩
  | tail hab hbc ih =>
    cases hbc with
    | identityResolve u h1 h2 => exact ih
    | effectSkip h1 h2 h3 => exact ih
    | effectFetch h1 h2 h3 => exact ih
    | fetchSettle resp h1 h2 =>
      refine ⟨ih.1, fun hc => ?_⟩
      rw [applyFetch_isSyncing]
      exact ih.2 hc
    | syncClick h1 h2 h3 =>
      rename_i b
      have h0 : b.syncCount = 0 := by
        rcases Nat.le_one_iff_eq_zero_or_eq_one.mp ih.1 with h0 | h1c
        · exact h0
        · have := ih.2 h1c
          rw [h3] at this
          exact absurd this (by decide)
      exact ⟨by show b.syncCount + 1 ≤ 1; omega, fun _ => rfl⟩
    | syncSettle resp h1 h2 =>
      rename_i b
      have hle := ih.1
      refine ⟨by show b.syncCount - 1 ≤ 1; omega, fun hc => ?_⟩
      have hc1 : b.syncCount - 1 = 1 := hc
      exfalso
      omega
    | disconnectClick h1 h2 => exact ih
    | disconnectSettle resp h1 h2 =>
      rename_i b
      refine ⟨ih.1, fun hc => ?_⟩
      rw [handleDisconnect_isSyncing]
      exact ih.2 hc

/-- Claim C5 (confirmed): `handleSync` sets the busy flag (which is
exactly the disabled condition of the sync button) at dispatch, every
settlement — success or failure — clears it exactly once via `finally`,
and along any reachable schedule at most one sync request is in flight,
with the control disabled for the whole in-flight duration. -/
theorem sync_busy_flag :
    (∀ ls : LocalState, syncControlDisabled (handleSyncDispatch ls) = true)
    ∧ (∀ (resp : Response Nat) (ls : LocalState),
        ((handleSyncSettle resp ls).1).isSyncing = false)
    ∧ (∀ (id0 : Identity) (s : PageState), Reachable (mkInitial id0) s →
        s.syncCount ≤ 1 ∧
          (s.syncCount = 1 → syncControlDisabled s.ls = true)) :=
  ⟨fun _ => rfl, handleSyncSettle_isSyncing,
   fun id0 s h => reachable_sync_invariant id0 s h⟩

/-- Witness for C5 at a concrete dispatch and at a concrete reachable
state. -/
theorem sync_busy_flag_witness :
    syncControlDisabled (handleSyncDispatch initialLocal) = true
    ∧ (mkInitial Identity.notLoaded).syncCount ≤ 1 :=
  ⟨sync_busy_flag.1 initialLocal,
   (sync_busy_flag.2.2 Identity.notLoaded (mkInitial Identity.notLoaded)
      Relation.ReflTransGen.refl).1⟩

/-! ## Claim C7 -/

theorem reachable_no_fetch (id0 : Identity) (s : PageState)
    (h : Reachable (mkInitial id0) s) :
    s.identity.isConnected = false → s.fetchesIssued = 0 := by
  induction h with
  | refl => intro _; rfl
  | tail hab hbc ih =>
    intro hc
    cases hbc with
    | identityResolve u h1 h2 => exact ih (by rw [h2]; rfl)
    | effectSkip h1 h2 h3 => exact ih hc
    | effectFetch h1 h2 h3 =>
      rename_i b
      have hc' : b.identity.isConnected = false := hc
      simp [Bool.and_eq_true] at h3
      rw [h3.2] at hc'
      exact Bool.noConfusion hc'
    | fetchSettle resp h1 h2 => exact ih hc
    | syncClick h1 h2 h3 => exact ih hc
    | syncSettle resp h1 h2 => exact ih hc
    | disconnectClick h1 h2 => exact ih hc
    | disconnectSettle resp h1 h2 => exact ih hc

/-- Claim C7 (confirmed): in any reachable state whose identity has no
linked account with provider `github`, the page has issued no
`GET /api/github/data` request, and once identity is loaded and the
effect guard has cleared `loading` the rendered view is the connect
prompt. -/
theorem not_connected_no_fetch (id0 : Identity) (s : PageState)
    (h : Reachable (mkInitial id0) s)
    (hc : s.identity.isConnected = false) :
    s.fetchesIssued = 0
    ∧ (s.identity.userLoaded = true → s.ls.loading = false →
        renderState s = View.notConnected) := by
  refine ⟨reachable_no_fetch id0 s h hc, fun hu hl => ?_⟩
  simp [renderState, renderView, hu, hl, hc]

/-- Witness for C7: a mounted page with identity loaded and no GitHub
account, after its effect run, renders the connect prompt and has issued
no fetch. -/
theorem not_connected_no_fetch_witness :
    c7s1.fetchesIssued = 0 ∧ renderState c7s1 = View.notConnected := by
  have h := not_connected_no_fetch (.loaded none) c7s1
    (Relation.ReflTransGen.single
      (Step.effectSkip (mkInitial (.loaded none)) rfl rfl rfl)) rfl
  exact ⟨h.1, h.2 rfl rfl⟩

/-! ## Claim C1 -/

theorem reachable_loading_invariant (u : Option ClerkUser)
    (hc : Identity.isConnected (.loaded u) = true) (s : PageState)
    (h : Reachable (mkInitial (.loaded u)) s) :
    s.identity = .loaded u ∧ (s.fetchesSettled = 0 → s.ls.loading = true) := by
  induction h with
  | refl => exact ⟨rfl, fun _ => rfl⟩
  | tail hab hbc ih =>
    refine ⟨step_identity_loaded hbc u ih.1, ?_⟩
    cases hbc with
    | identityResolve v h1 h2 => rw [ih.1] at h2; simp at h2
    | effectSkip h1 h2 h3 =>
      rw [ih.1] at h3
      simp [Identity.userLoaded, hc] at h3
    | effectFetch h1 h2 h3 => exact ih.2
    | fetchSettle resp h1 h2 =>
      intro hsettle
      exact absurd hsettle (Nat.succ_ne_zero _)
    | syncClick h1 h2 h3 => exact ih.2
    | syncSettle resp h1 h2 =>
      intro hsettle
      rw [handleSyncSettle_loading]
      exact ih.2 hsettle
    | disconnectClick h1 h2 => exact ih.2
    | disconnectSettle resp h1 h2 =>
      intro hsettle
      rw [handleDisconnect_loading]
      exact ih.2 hsettle

/-- Claim C1 counterexample: it is not true that the page stays in the
Loading view whenever identity has resolved as connected and the initial
fetch has not yet settled.  Concrete run: mount with identity unresolved
(`cxS0`), the mount effect run hits the not-loaded guard and clears
`loading` (`cxS1`), then identity resolves with a GitHub-connected user
(`cxS2`): now `cxS2` is reachable, connected, no fetch has settled (none
was even issued), yet the rendered view is the connected dashboard with
empty data, not Loading. -/
theorem loading_not_persistent_counterexample :
    ¬ (∀ (id0 : Identity) (s : PageState), Reachable (mkInitial id0) s →
        s.identity.isConnected = true → s.fetchesSettled = 0 →
        renderState s = View.loading) := by
  intro h
  have hr : Reachable (mkInitial .notLoaded) cxS2 :=
    Relation.ReflTransGen.tail
      (Relation.ReflTransGen.single (Step.effectSkip cxS0 rfl rfl rfl))
      (Step.identityResolve cxS1 (some ghClerkUser) rfl rfl)
  have hx := h .notLoaded cxS2 hr (by decide) rfl
  exact absurd hx (by decide)

/-- Claim C1 (corrected): while identity is not yet loaded the page
always renders Loading; and in runs whose identity is already resolved
as connected at mount, Loading persists until the initial fetch settles.
But when identity resolves only after mount, the first effect run has
already cleared `loading`, so the page leaves Loading as soon as
identity resolves — before the fetch settles (see the counterexample). -/
theorem loading_view_characterisation :
    (∀ s : PageState, s.identity.userLoaded = false →
      renderState s = View.loading)
    ∧ (∀ (u : Option ClerkUser) (s : PageState),
        Identity.isConnected (.loaded u) = true →
        Reachable (mkInitial (.loaded u)) s →
        s.fetchesSettled = 0 → renderState s = View.loading) := by
  constructor
  · intro s hu
    simp [renderState, renderView, hu]
  · intro u s hc hr hs
    have hl := (reachable_loading_invariant u hc s hr).2 hs
    simp [renderState, renderView, hl]

/-- Witness for C1: the unresolved-identity initial state and the
connected-at-mount initial state both render Loading. -/
theorem loading_view_characterisation_witness :
    renderState (mkInitial Identity.notLoaded) = View.loading
    ∧ renderState (mkInitial (.loaded (some ghClerkUser))) = View.loading :=
  ⟨loading_view_characterisation.1 (mkInitial Identity.notLoaded) rfl,
   loading_view_characterisation.2 (some ghClerkUser)
     (mkInitial (.loaded (some ghClerkUser))) (by decide)
     Relation.ReflTransGen.refl rfl⟩

/-! ## Claim C2 -/

theorem renderView_connected_iff (ls : LocalState) :
    renderView true true ls = View.connected ↔
      (ls.loading = false ∧ ls.error = none) := by
  obtain ⟨g, rs, ns, ld, sy, e⟩ := ls
  cases ld <;> cases e <;> simp [renderView]

/-- Claim C2 counterexample: after a failed sync from the connected
dashboard, the dashboard does not remain visible — the non-null `error`
makes the render selector return the full-page error panel instead of
the Connected view. -/
theorem sync_failure_dashboard_replaced :
    renderView true true cxConnectedLs = View.connected
    ∧ ¬ (renderView true true
          (handleSync (.httpError "Rate limited" none) cxConnectedLs).1
        = View.connected)
    ∧ renderView true true
        (handleSync (.httpError "Rate limited" none) cxConnectedLs).1
      = View.errorView := by
  decide

/-- Claim C2 (corrected): a sync failure (non-ok response or thrown
Error) sets `error` to the parsed message and details and emits a
failure toast whose description is the error message — but on the next
render the full-page error panel replaces the dashboard, because the
render selector checks `error` before reaching the Connected view. -/
theorem sync_failure_error_toast_panel (ls : LocalState) (e : String)
    (d : Option String) (h : renderView true true ls = View.connected) :
    ((handleSync (.httpError e d) ls).1.error = some ⟨e, d⟩
      ∧ (handleSync (.httpError e d) ls).2
          = [⟨ToastKind.error, "Sync Failed", e⟩]
      ∧ renderView true true (handleSync (.httpError e d) ls).1
          = View.errorView)
    ∧ ((handleSync (.thrown (.errObj e d)) ls).1.error = some ⟨e, d⟩
      ∧ (handleSync (.thrown (.errObj e d)) ls).2
          = [⟨ToastKind.error, "Sync Failed", e⟩]
      ∧ renderView true true (handleSync (.thrown (.errObj e d)) ls).1
          = View.errorView) := by
  obtain ⟨hl, he⟩ := (renderView_connected_iff ls).mp h
  constructor <;> refine ⟨rfl, rfl, ?_⟩ <;>
    simp [handleSync, handleSyncDispatch, handleSyncSettle, renderView, hl]

/-- Witness for C2 at a concrete connected state and failure. -/
theorem sync_failure_error_toast_panel_witness :
    (handleSync (.httpError "boom" none) cxConnectedLs).1.error
        = some ⟨"boom", none⟩
    ∧ renderView true true
        (handleSync (.httpError "boom" none) cxConnectedLs).1
      = View.errorView := by
  have h := sync_failure_error_toast_panel cxConnectedLs "boom" none
    (by decide)
  exact ⟨h.1.1, h.1.2.2⟩

end GitHubPage
